import Mathlib

/-!
Shallow embedding of the Flask blog application (`src/app.py`) and proofs
about its route handlers. Pure data is modelled by Lean structures; each
route handler becomes a function from the database state, the current
session identity and the (already validated) form data to a result record
holding the new database state, the new session identity, the flashed
messages and the HTTP response. Form validation itself lives in `forms.py`
(not part of the sources); a handler receives `some form` exactly when
`validate_on_submit()` returned true.
-/

namespace BlogApp

/-- Modelled from the spec: the `User` record of `models.py` (not among the
sources) — identity with unique email, display name, hashed password. -/
structure User where
  id : Nat
  email : String
  name : String
  password : String
deriving Repr, DecidableEq

/-- Modelled from the spec: the `BlogPost` record of `models.py` (not among
the sources) — title, subtitle, body, cover image URL, human-formatted date
string and an author reference. -/
structure BlogPost where
  id : Nat
  title : String
  subtitle : String
  date : String
  body : String
  img_url : String
  author_id : Nat
deriving Repr, DecidableEq

/-- Modelled from the spec: the `Comment` record of `models.py` (not among
the sources) — text body, author reference, parent-post reference. -/
structure Comment where
  id : Nat
  text : String
  author_id : Nat
  post_id : Nat
deriving Repr, DecidableEq

/-- The three relational tables. -/
structure DBState where
  users : List User
  posts : List BlogPost
  comments : List Comment
deriving Repr, DecidableEq

/-- A flashed message together with its category (`flash(msg)` uses the
default category "message"; the contact route passes "success"/"danger"). -/
structure Flash where
  message : String
  category : String
deriving Repr, DecidableEq

/-- The response of a handler: a redirect (`url_for` endpoint name plus the
optional `post_id` argument), a rendered template (carrying the
`gravatar_link` value when the template receives one), an `abort(code)`,
or an uncaught Python exception (which the framework turns into an
internal server error). -/
inductive Response where
  | redirect (endpoint : String) (arg : Option Nat)
  | render (template : String) (gravatar_link : Option String)
  | httpError (code : Nat)
  | serverError (exn : String)
deriving Repr, DecidableEq

/-- What one request leaves behind: database, session identity
(`current_user`), flashed messages, response. -/
structure HandlerResult where
  db : DBState
  session : Option User
  flashes : List Flash
  response : Response
deriving Repr, DecidableEq

/-- Validated fields of `RegisterForm`. -/
structure RegisterFormData where
  name : String
  email : String
  password : String
deriving Repr, DecidableEq

/-- Validated fields of `LoginForm`. -/
structure LoginFormData where
  email : String
  password : String
deriving Repr, DecidableEq

/-- Validated fields of `CreatePostForm`. -/
structure CreatePostFormData where
  title : String
  subtitle : String
  img_url : String
  body : String
deriving Repr, DecidableEq

/-- Validated fields of `CommentForm`. -/
structure CommentFormData where
  comment_text : String
deriving Repr, DecidableEq

/-- Validated fields of `ContactForm`. -/
structure ContactFormData where
  name : String
  email : String
  phone_number : String
  message : String
deriving Repr, DecidableEq

/-- Modelled from the spec: werkzeug's `generate_password_hash(password,
method=pbkdf2:sha256, salt_length=8)` (third-party, not among the sources)
— a salted hashing algorithm whose output records method, salt and a
digest of the password. The stand-in keeps the algebraic shape
`method$salt$digest`; the exact digest is irrelevant to the claims. -/
def generate_password_hash (salt password : String) : String :=
  "pbkdf2:sha256$" ++ salt ++ "$" ++ password

/-- Splits a character list at every dollar sign (the separator werkzeug
uses inside a stored password hash). -/
def splitOnDollar : List Char → List (List Char)
  | [] => [[]]
  | c :: rest =>
      let r := splitOnDollar rest
      if c == '$' then [] :: r
      else
        match r with
        | [] => [[c]]
        | h :: t => (c :: h) :: t

/-- Modelled from the spec: werkzeug's `check_password_hash` (third-party,
not among the sources) — recovers the salt stored in the
`method$salt$digest` hash and checks the candidate password against it. -/
def check_password_hash (pwhash password : String) : Bool :=
  match splitOnDollar pwhash.data with
  | _ :: salt :: _ => pwhash == generate_password_hash (String.mk salt) password
  | _ => false

/-- `gravatar_url` from `app.py`: builds the avatar URL by f-string
interpolation of its four parameters (Python renders a bool as
"True"/"False"). -/
def pyBoolStr (b : Bool) : String :=
  if b then "True" else "False"

/-- `gravatar_url(size, rating, default, force_default)` from `app.py`. -/
def gravatar_url (size : Nat) (rating : String) (default : String)
    (force_default : Bool) : String :=
  "https://www.gravatar.com/avatar/?s=" ++ toString size ++ "&d=" ++ default
    ++ "&r=" ++ rating ++ "&f=" ++ pyBoolStr force_default

/-- The zero-argument call `gravatar_url()` made in `show_post`, i.e. the
Python defaults `size=100, rating='g', default='retro',
force_default=False`. -/
def gravatar_url_default : String :=
  gravatar_url 100 "g" "retro" false

/-- Month name as produced by `strftime("%B")`. -/
def monthName : Nat → String
  | 1 => "January"
  | 2 => "February"
  | 3 => "March"
  | 4 => "April"
  | 5 => "May"
  | 6 => "June"
  | 7 => "July"
  | 8 => "August"
  | 9 => "September"
  | 10 => "October"
  | 11 => "November"
  | 12 => "December"
  | _ => ""

/-- Zero-padded two-digit day as produced by `strftime("%d")`. -/
def pad2 (n : Nat) : String :=
  if n < 10 then "0" ++ toString n else toString n

/-- A calendar date as returned by `date.today()`. -/
structure PyDate where
  year : Nat
  month : Nat
  day : Nat
deriving Repr, DecidableEq

/-- `strftime("%B %d, %Y")` applied to a date: "Month DD, YYYY". -/
def strftime_BdY (d : PyDate) : String :=
  monthName d.month ++ " " ++ pad2 d.day ++ ", " ++ toString d.year

/-- Outcome of running the `admin_only` guard around a route body. -/
inductive GuardOutcome (α : Type) where
  | attrError
  | forbidden
  | proceed (a : α)
deriving Repr, DecidableEq

/-- The `admin_only` decorator from `app.py`. It evaluates
`current_user.id != 1` and aborts with 403 when the test holds, otherwise
calls the wrapped route. When no identity is logged in, `current_user` is
Flask-Login's `AnonymousUserMixin`, which has no `id` attribute: the
attribute access itself raises `AttributeError` before any comparison. -/
def admin_only {α : Type} (cu : Option User) (f : User → α) : GuardOutcome α :=
  match cu with
  | none => GuardOutcome.attrError
  | some u =>
      if u.id != 1 then GuardOutcome.forbidden else GuardOutcome.proceed (f u)

/-- Lifts a guard outcome to a request result: `abort(403)` becomes an HTTP
403 response and the `AttributeError` escapes as an internal server error;
neither touches the database or the session. -/
def guardResult (st : DBState) (cu : Option User)
    (body : User → HandlerResult) : HandlerResult :=
  match admin_only cu body with
  | GuardOutcome.attrError =>
      { db := st, session := cu, flashes := [],
        response := Response.serverError "AttributeError" }
  | GuardOutcome.forbidden =>
      { db := st, session := cu, flashes := [],
        response := Response.httpError 403 }
  | GuardOutcome.proceed r => r

/-- The `register` route of `app.py`, on the `validate_on_submit()` branch.
`fresh_id` is the id the storage engine assigns to a newly inserted row;
`salt` is the random salt drawn by `generate_password_hash`. -/
def register (st : DBState) (cu : Option User) (form : RegisterFormData)
    (fresh_id : Nat) (salt : String) : HandlerResult :=
  match st.users.find? (fun u => u.email == form.email) with
  | some _ =>
      { db := st, session := cu,
        flashes := [{ message := "You've already signed up with that email, log in instead!",
                      category := "message" }],
        response := Response.redirect "login" none }
  | none =>
      let new_user : User :=
        { id := fresh_id, email := form.email, name := form.name,
          password := generate_password_hash salt form.password }
      { db := { st with users := st.users ++ [new_user] },
        session := some new_user,
        flashes := [],
        response := Response.redirect "get_all_posts" none }

/-- The `login` route of `app.py`, on the `validate_on_submit()` branch. -/
def login (st : DBState) (cu : Option User) (form : LoginFormData) :
    HandlerResult :=
  match st.users.find? (fun u => u.email == form.email) with
  | none =>
      { db := st, session := cu,
        flashes := [{ message := "That email does not exist, please try again.",
                      category := "message" }],
        response := Response.redirect "login" none }
  | some user =>
      if !check_password_hash user.password form.password then
        { db := st, session := cu,
          flashes := [{ message := "Password incorrect, please try again.",
                        category := "message" }],
          response := Response.redirect "login" none }
      else
        { db := st, session := some user, flashes := [],
          response := Response.redirect "get_all_posts" none }

/-- The `show_post` route of `app.py`. `form = some cf` models a POST on
which `validate_on_submit()` succeeded; `form = none` models a plain GET
(or a failed validation). `fresh_cid` is the id the storage engine assigns
to a newly inserted comment row. -/
def show_post (st : DBState) (cu : Option User) (post_id : Nat)
    (form : Option CommentFormData) (fresh_cid : Nat) : HandlerResult :=
  match st.posts.find? (fun p => p.id == post_id) with
  | none =>
      { db := st, session := cu, flashes := [],
        response := Response.httpError 404 }
  | some requested_post =>
      match form with
      | some cf =>
          match cu with
          | none =>
              { db := st, session := none,
                flashes := [{ message := "You need to login or register to comment.",
                              category := "message" }],
                response := Response.redirect "login" none }
          | some user =>
              let new_comment : Comment :=
                { id := fresh_cid, text := cf.comment_text,
                  author_id := user.id, post_id := requested_post.id }
              { db := { st with comments := st.comments ++ [new_comment] },
                session := cu, flashes := [],
                response := Response.render "post.html" (some gravatar_url_default) }
      | none =>
          { db := st, session := cu, flashes := [],
            response := Response.render "post.html" (some gravatar_url_default) }

/-- The body of the `add_new_post` route of `app.py` (inside the
`admin_only` guard). `today` is the server's `date.today()`; `fresh_pid`
is the id assigned to the new post row. -/
def add_new_post_body (st : DBState) (user : User)
    (form : Option CreatePostFormData) (today : PyDate) (fresh_pid : Nat) :
    HandlerResult :=
  match form with
  | some f =>
      let new_post : BlogPost :=
        { id := fresh_pid, title := f.title, subtitle := f.subtitle,
          date := strftime_BdY today, body := f.body, img_url := f.img_url,
          author_id := user.id }
      { db := { st with posts := st.posts ++ [new_post] },
        session := some user, flashes := [],
        response := Response.redirect "get_all_posts" none }
  | none =>
      { db := st, session := some user, flashes := [],
        response := Response.render "make-post.html" none }

/-- The `/new-post` route: `add_new_post` wrapped by `admin_only`. -/
def add_new_post (st : DBState) (cu : Option User)
    (form : Option CreatePostFormData) (today : PyDate) (fresh_pid : Nat) :
    HandlerResult :=
  guardResult st cu (fun u => add_new_post_body st u form today fresh_pid)

/-- The `edit_post` route of `app.py` (not wrapped by the admin guard). On
a validated submission it overwrites title, subtitle, image URL and body,
reassigns the author to `current_user`, and redirects to the post's detail
view. Assigning the anonymous `current_user` to the `author` relationship
hands the ORM a non-`User` object, which raises when the session flushes. -/
def edit_post (st : DBState) (cu : Option User) (post_id : Nat)
    (form : Option CreatePostFormData) : HandlerResult :=
  match st.posts.find? (fun p => p.id == post_id) with
  | none =>
      { db := st, session := cu, flashes := [],
        response := Response.httpError 404 }
  | some post =>
      match form with
      | some f =>
          match cu with
          | none =>
              { db := st, session := none, flashes := [],
                response := Response.serverError "flush of anonymous author" }
          | some user =>
              let post' : BlogPost :=
                { post with
                  title := f.title,
                  subtitle := f.subtitle,
                  img_url := f.img_url,
                  author_id := user.id,
                  body := f.body }
              { db := { st with
                  posts := st.posts.map (fun p => if p.id == post_id then post' else p) },
                session := cu, flashes := [],
                response := Response.redirect "show_post" (some post'.id) }
      | none =>
          { db := st, session := cu, flashes := [],
            response := Response.render "make-post.html" none }

/-- The body of the `delete_post` route of `app.py` (inside the
`admin_only` guard): fetch-or-404, delete, redirect to the listing. -/
def delete_post_body (st : DBState) (user : User) (post_id : Nat) :
    HandlerResult :=
  match st.posts.find? (fun p => p.id == post_id) with
  | none =>
      { db := st, session := some user, flashes := [],
        response := Response.httpError 404 }
  | some _ =>
      { db := { st with posts := st.posts.filter (fun p => !(p.id == post_id)) },
        session := some user, flashes := [],
        response := Response.redirect "get_all_posts" none }

/-- The `/delete/<id>` route: `delete_post` wrapped by `admin_only`. -/
def delete_post (st : DBState) (cu : Option User) (post_id : Nat) :
    HandlerResult :=
  guardResult st cu (fun u => delete_post_body st u post_id)

/-- `construct_msg` from `app.py`: the f-string body of the contact email
(`from_email` stands for the `FROM_EMAIL` environment value). -/
def construct_msg (from_email name email phone_number msg : String) : String :=
  "Subject: Blog Website Contact \nFrom: noreply <" ++ from_email
    ++ "> \n\n\n                        You got a contact message \n\n                        From: "
    ++ name ++ " \n\n                        email: " ++ email
    ++ " \n\n                        phone number: " ++ phone_number
    ++ " \n\n                        message: " ++ msg

/-- What the mail transport (`send_email`, i.e. the SMTP session) did:
either it returned normally or it raised some exception. -/
inductive MailOutcome where
  | ok
  | exn (e : String)
deriving Repr, DecidableEq

/-- The `contact` route of `app.py`. `form = some f` models a POST on which
`validate_on_submit()` succeeded; `from_email` is the `FROM_EMAIL`
environment value and `transport` is what `send_email` does with the
formatted message. The `try` block catches every transport exception with
a bare `except:`. -/
def contact (st : DBState) (cu : Option User) (form : Option ContactFormData)
    (from_email : String) (transport : String → MailOutcome) : HandlerResult :=
  match form with
  | some f =>
      match transport (construct_msg from_email f.name f.email f.phone_number f.message) with
      | MailOutcome.ok =>
          { db := st, session := cu,
            flashes := [{ message := "Your message has been sent successfully!",
                          category := "success" }],
            response := Response.redirect "contact" none }
      | MailOutcome.exn _ =>
          { db := st, session := cu,
            flashes := [{ message := "An unexpected error occurred. Please try again later",
                          category := "danger" }],
            response := Response.redirect "contact" none }
  | none =>
      { db := st, session := cu, flashes := [],
        response := Response.render "contact.html" none }

/-- Lower-cases every character of a string. -/
def lowerChars (s : String) : List Char :=
  s.data.map Char.toLower

/-- Whether `pat` is a leading segment of `s`. -/
def matchesAt : List Char → List Char → Bool
  | [], _ => true
  | _ :: _, [] => false
  | p :: ps, c :: cs => (p == c) && matchesAt ps cs

/-- Whether `pat` occurs contiguously somewhere in `s`. -/
def occursIn (pat : List Char) : List Char → Bool
  | [] => matchesAt pat []
  | c :: cs => matchesAt pat (c :: cs) || occursIn pat cs

/-- Case-insensitive substring test on strings: does `s` contain `pat`? -/
def msgContains (s pat : String) : Bool :=
  occursIn (lowerChars pat) (lowerChars s)

/-- Claim C1, counterexample: an anonymous request to the admin-only
routes does not receive HTTP 403 — the guard's `current_user.id` attribute
access raises `AttributeError`, which surfaces as an internal server
error. -/
theorem admin_guard_anonymous_counterexample :
    (add_new_post { users := [], posts := [], comments := [] } none none
        { year := 2026, month := 10, day := 12 } 1).response
      = Response.serverError "AttributeError" ∧
    ¬ ((add_new_post { users := [], posts := [], comments := [] } none none
        { year := 2026, month := 10, day := 12 } 1).response
      = Response.httpError 403) ∧
    (delete_post { users := [], posts := [], comments := [] } none 1).response
      = Response.serverError "AttributeError" := by
  decide

/-- Claim C1, amended: on the admin-only routes (`/new-post`,
`/delete/<id>`), an authenticated identity whose id is not 1 receives
HTTP 403 and the wrapped route body is never invoked; the identity with
id 1 has the wrapped route invoked; an anonymous caller does not reach the
comparison at all — the guard raises `AttributeError` (internal server
error), not 403. -/
theorem admin_guard_amended (st : DBState) (u : User)
    (form : Option CreatePostFormData) (today : PyDate) (fid pid : Nat) :
    (u.id ≠ 1 →
      (∀ (α : Type) (body : User → α),
        admin_only (some u) body = GuardOutcome.forbidden) ∧
      add_new_post st (some u) form today fid =
        { db := st, session := some u, flashes := [],
          response := Response.httpError 403 } ∧
      delete_post st (some u) pid =
        { db := st, session := some u, flashes := [],
          response := Response.httpError 403 }) ∧
    (u.id = 1 →
      (∀ (α : Type) (body : User → α),
        admin_only (some u) body = GuardOutcome.proceed (body u)) ∧
      add_new_post st (some u) form today fid =
        add_new_post_body st u form today fid ∧
      delete_post st (some u) pid = delete_post_body st u pid) ∧
    (∀ (α : Type) (body : User → α),
      admin_only (none : Option User) body = GuardOutcome.attrError) ∧
    (add_new_post st none form today fid).response
      = Response.serverError "AttributeError" ∧
    (delete_post st none pid).response
      = Response.serverError "AttributeError" := by
  refine ⟨?_, ?_, ?_, ?_, ?_⟩
  · intro h
    have hb : (u.id != 1) = true := by simpa [bne_iff_ne] using h
    exact ⟨fun α body => by simp [admin_only, hb],
      by simp [add_new_post, guardResult, admin_only, hb],
      by simp [delete_post, guardResult, admin_only, hb]⟩
  · intro h
    exact ⟨fun α body => by simp [admin_only, h],
      by simp [add_new_post, guardResult, admin_only, h],
      by simp [delete_post, guardResult, admin_only, h]⟩
  · intro α body
    rfl
  · rfl
  · rfl

/-- Claim C1, witness: the amended statement applied at an id-2 identity
(forbidden) and at the id-1 identity (route body reached). -/
theorem admin_guard_amended_witness :
    add_new_post { users := [], posts := [], comments := [] }
        (some { id := 2, email := "e@x", name := "E", password := "h" }) none
        { year := 2026, month := 10, day := 12 } 1 =
      { db := { users := [], posts := [], comments := [] },
        session := some { id := 2, email := "e@x", name := "E", password := "h" },
        flashes := [], response := Response.httpError 403 } ∧
    delete_post { users := [], posts := [], comments := [] }
        (some { id := 1, email := "a@x", name := "A", password := "h" }) 7 =
      delete_post_body { users := [], posts := [], comments := [] }
        { id := 1, email := "a@x", name := "A", password := "h" } 7 := by
  constructor
  · exact ((admin_guard_amended { users := [], posts := [], comments := [] }
      { id := 2, email := "e@x", name := "E", password := "h" } none
      { year := 2026, month := 10, day := 12 } 1 7).1 (by decide)).2.1
  · exact ((admin_guard_amended { users := [], posts := [], comments := [] }
      { id := 1, email := "a@x", name := "A", password := "h" } none
      { year := 2026, month := 10, day := 12 } 1 7).2.1 rfl).2.2

/-- The stand-in salted hash is never the plaintext: it is strictly longer
than the password it digests. -/
theorem generate_password_hash_ne (salt password : String) :
    generate_password_hash salt password ≠ password := by
  intro h
  have hlen := congrArg String.length h
  have h14 : ("pbkdf2:sha256$" : String).length = 14 := rfl
  have h1 : ("$" : String).length = 1 := rfl
  simp only [generate_password_hash, String.length_append, h14, h1] at hlen
  omega

/-- Claim C2: a registration whose email is already present leaves the
database unchanged, flashes a warning and redirects to the login page; a
fresh registration persists exactly one new `User` whose stored password
is the salted hash (never the plaintext), logs that identity in, and
redirects to the post listing. -/
theorem register_spec (st : DBState) (cu : Option User)
    (form : RegisterFormData) (fid : Nat) (salt : String) :
    (∀ u0, st.users.find? (fun u => u.email == form.email) = some u0 →
      register st cu form fid salt =
        { db := st, session := cu,
          flashes := [{ message := "You've already signed up with that email, log in instead!",
                        category := "message" }],
          response := Response.redirect "login" none }) ∧
    (st.users.find? (fun u => u.email == form.email) = none →
      register st cu form fid salt =
        { db := { st with users := st.users ++
            [{ id := fid, email := form.email, name := form.name,
               password := generate_password_hash salt form.password }] },
          session := some { id := fid, email := form.email, name := form.name,
                            password := generate_password_hash salt form.password },
          flashes := [],
          response := Response.redirect "get_all_posts" none } ∧
      generate_password_hash salt form.password ≠ form.password) := by
  constructor
  · intro u0 h
    simp [register, h]
  · intro h
    exact ⟨by simp [register, h], generate_password_hash_ne salt form.password⟩

/-- Claim C2, witness: a duplicate registration against a one-user table
and a fresh registration against an empty table. -/
theorem register_spec_witness :
    register { users := [{ id := 1, email := "a@x", name := "A", password := "p" }],
               posts := [], comments := [] }
        none { name := "B", email := "a@x", password := "secret" } 2 "salt" =
      { db := { users := [{ id := 1, email := "a@x", name := "A", password := "p" }],
                posts := [], comments := [] },
        session := none,
        flashes := [{ message := "You've already signed up with that email, log in instead!",
                      category := "message" }],
        response := Response.redirect "login" none } ∧
    register { users := [], posts := [], comments := [] }
        none { name := "B", email := "b@x", password := "secret" } 1 "salt" =
      { db := { users := [{ id := 1, email := "b@x", name := "B",
                            password := generate_password_hash "salt" "secret" }],
                posts := [], comments := [] },
        session := some { id := 1, email := "b@x", name := "B",
                          password := generate_password_hash "salt" "secret" },
        flashes := [],
        response := Response.redirect "get_all_posts" none } ∧
    generate_password_hash "salt" "secret" ≠ "secret" := by
  refine ⟨?_, ?_, ?_⟩
  · exact (register_spec
      { users := [{ id := 1, email := "a@x", name := "A", password := "p" }],
        posts := [], comments := [] }
      none { name := "B", email := "a@x", password := "secret" } 2 "salt").1
      { id := 1, email := "a@x", name := "A", password := "p" } rfl
  · exact ((register_spec { users := [], posts := [], comments := [] }
      none { name := "B", email := "b@x", password := "secret" } 1 "salt").2 rfl).1
  · exact ((register_spec { users := [], posts := [], comments := [] }
      none { name := "B", email := "b@x", password := "secret" } 1 "salt").2 rfl).2

/-- Claim C3: logging in with an unknown email flashes a message saying
the email does not exist and redirects back to the login page without
touching the session; a known email with a non-matching password flashes a
message saying the password is incorrect and redirects back likewise; a
matching password establishes the session for that user and redirects to
the post listing. -/
theorem login_spec (st : DBState) (cu : Option User) (form : LoginFormData) :
    (st.users.find? (fun u => u.email == form.email) = none →
      login st cu form =
        { db := st, session := cu,
          flashes := [{ message := "That email does not exist, please try again.",
                        category := "message" }],
          response := Response.redirect "login" none } ∧
      msgContains "That email does not exist, please try again."
        "email does not exist" = true) ∧
    (∀ user, st.users.find? (fun u => u.email == form.email) = some user →
      (check_password_hash user.password form.password = false →
        login st cu form =
          { db := st, session := cu,
            flashes := [{ message := "Password incorrect, please try again.",
                          category := "message" }],
            response := Response.redirect "login" none } ∧
        msgContains "Password incorrect, please try again."
          "password incorrect" = true) ∧
      (check_password_hash user.password form.password = true →
        login st cu form =
          { db := st, session := some user, flashes := [],
            response := Response.redirect "get_all_posts" none })) := by
  refine ⟨?_, ?_⟩
  · intro h
    exact ⟨by simp [login, h], by rfl⟩
  · intro user h
    refine ⟨?_, ?_⟩
    · intro hc
      exact ⟨by simp [login, h, hc], by rfl⟩
    · intro hc
      simp [login, h, hc]

/-- Claim C3, witness: the three branches at a concrete one-user table
whose stored password is the salted hash of "pw". -/
theorem login_spec_witness :
    login { users := [], posts := [], comments := [] } none
        { email := "x@x", password := "pw" } =
      { db := { users := [], posts := [], comments := [] }, session := none,
        flashes := [{ message := "That email does not exist, please try again.",
                      category := "message" }],
        response := Response.redirect "login" none } ∧
    login { users := [{ id := 1, email := "a@x", name := "A",
                        password := generate_password_hash "s" "pw" }],
            posts := [], comments := [] } none
        { email := "a@x", password := "bad" } =
      { db := { users := [{ id := 1, email := "a@x", name := "A",
                            password := generate_password_hash "s" "pw" }],
                posts := [], comments := [] },
        session := none,
        flashes := [{ message := "Password incorrect, please try again.",
                      category := "message" }],
        response := Response.redirect "login" none } ∧
    login { users := [{ id := 1, email := "a@x", name := "A",
                        password := generate_password_hash "s" "pw" }],
            posts := [], comments := [] } none
        { email := "a@x", password := "pw" } =
      { db := { users := [{ id := 1, email := "a@x", name := "A",
                            password := generate_password_hash "s" "pw" }],
                posts := [], comments := [] },
        session := some { id := 1, email := "a@x", name := "A",
                          password := generate_password_hash "s" "pw" },
        flashes := [],
        response := Response.redirect "get_all_posts" none } := by
  refine ⟨?_, ?_, ?_⟩
  · exact ((login_spec { users := [], posts := [], comments := [] } none
      { email := "x@x", password := "pw" }).1 rfl).1
  · exact (((login_spec
      { users := [{ id := 1, email := "a@x", name := "A",
                    password := generate_password_hash "s" "pw" }],
        posts := [], comments := [] }
      none { email := "a@x", password := "bad" }).2
      { id := 1, email := "a@x", name := "A",
        password := generate_password_hash "s" "pw" } rfl).1 (by rfl)).1
  · exact ((login_spec
      { users := [{ id := 1, email := "a@x", name := "A",
                    password := generate_password_hash "s" "pw" }],
        posts := [], comments := [] }
      none { email := "a@x", password := "pw" }).2
      { id := 1, email := "a@x", name := "A",
        password := generate_password_hash "s" "pw" } rfl).2 (by rfl)

/-- Claim C4: a validated comment POST on an existing post persists
nothing and redirects to the login page with a login prompt when no
identity is authenticated; with an authenticated identity it persists
exactly one comment linked to that identity and that post and re-renders
the same post page (no redirect). -/
theorem show_post_comment_spec (st : DBState) (post_id : Nat)
    (cf : CommentFormData) (fid : Nat) :
    ∀ p, st.posts.find? (fun q => q.id == post_id) = some p →
      (show_post st none post_id (some cf) fid =
        { db := st, session := none,
          flashes := [{ message := "You need to login or register to comment.",
                        category := "message" }],
          response := Response.redirect "login" none }) ∧
      (∀ user : User,
        show_post st (some user) post_id (some cf) fid =
          { db := { st with comments := st.comments ++
              [{ id := fid, text := cf.comment_text, author_id := user.id,
                 post_id := p.id }] },
            session := some user, flashes := [],
            response := Response.render "post.html" (some gravatar_url_default) }) := by
  intro p h
  constructor
  · simp [show_post, h]
  · intro user
    simp [show_post, h]

/-- Claim C4, witness: an anonymous and an authenticated comment POST on a
concrete one-post table. -/
theorem show_post_comment_spec_witness :
    show_post { users := [], posts := [{ id := 3, title := "T", subtitle := "S",
                                         date := "D", body := "B", img_url := "I",
                                         author_id := 1 }], comments := [] }
        none 3 (some { comment_text := "hi" }) 1 =
      { db := { users := [], posts := [{ id := 3, title := "T", subtitle := "S",
                                         date := "D", body := "B", img_url := "I",
                                         author_id := 1 }], comments := [] },
        session := none,
        flashes := [{ message := "You need to login or register to comment.",
                      category := "message" }],
        response := Response.redirect "login" none } ∧
    show_post { users := [], posts := [{ id := 3, title := "T", subtitle := "S",
                                         date := "D", body := "B", img_url := "I",
                                         author_id := 1 }], comments := [] }
        (some { id := 2, email := "b@x", name := "B", password := "h" })
        3 (some { comment_text := "hi" }) 1 =
      { db := { users := [], posts := [{ id := 3, title := "T", subtitle := "S",
                                         date := "D", body := "B", img_url := "I",
                                         author_id := 1 }],
                comments := [{ id := 1, text := "hi", author_id := 2, post_id := 3 }] },
        session := some { id := 2, email := "b@x", name := "B", password := "h" },
        flashes := [],
        response := Response.render "post.html" (some gravatar_url_default) } := by
  constructor
  · exact (show_post_comment_spec
      { users := [], posts := [{ id := 3, title := "T", subtitle := "S",
                                 date := "D", body := "B", img_url := "I",
                                 author_id := 1 }], comments := [] }
      3 { comment_text := "hi" } 1
      { id := 3, title := "T", subtitle := "S", date := "D", body := "B",
        img_url := "I", author_id := 1 } rfl).1
  · exact (show_post_comment_spec
      { users := [], posts := [{ id := 3, title := "T", subtitle := "S",
                                 date := "D", body := "B", img_url := "I",
                                 author_id := 1 }], comments := [] }
      3 { comment_text := "hi" } 1
      { id := 3, title := "T", subtitle := "S", date := "D", body := "B",
        img_url := "I", author_id := 1 } rfl).2
      { id := 2, email := "b@x", name := "B", password := "h" }

/-- Claim C5: with the admin identity, both `/post/<id>` and
`/delete/<id>` answer 404 when no post has that id; deleting an existing
post removes it, redirects to the listing, and any later `/post/<id>` for
that id on the resulting database answers 404. -/
theorem delete_and_404_spec (st : DBState) (admin : User) (pid : Nat)
    (cu cu2 : Option User) (form form2 : Option CommentFormData)
    (fid fid2 : Nat) (hadmin : admin.id = 1) :
    (st.posts.find? (fun p => p.id == pid) = none →
      (show_post st cu pid form fid).response = Response.httpError 404 ∧
      (delete_post st (some admin) pid).response = Response.httpError 404) ∧
    (∀ p, st.posts.find? (fun q => q.id == pid) = some p →
      (delete_post st (some admin) pid).response
        = Response.redirect "get_all_posts" none ∧
      (delete_post st (some admin) pid).db.posts.find? (fun q => q.id == pid)
        = none ∧
      (show_post (delete_post st (some admin) pid).db cu2 pid form2 fid2).response
        = Response.httpError 404) := by
  have hpass : delete_post st (some admin) pid = delete_post_body st admin pid := by
    simp [delete_post, guardResult, admin_only, hadmin]
  have hfilter : (st.posts.filter (fun p => !(p.id == pid))).find?
      (fun q => q.id == pid) = none := by
    rw [List.find?_eq_none]
    intro x hx
    simpa using (List.mem_filter.1 hx).2
  constructor
  · intro h
    constructor
    · simp [show_post, h]
    · rw [hpass]
      simp [delete_post_body, h]
  · intro p h
    rw [hpass]
    refine ⟨?_, ?_, ?_⟩
    · simp [delete_post_body, h]
    · simp only [delete_post_body, h]
      exact hfilter
    · simp only [delete_post_body, h]
      simp [show_post, hfilter]

/-- Claim C5, witness: a concrete one-post table, a missing id and the
delete-then-view sequence on the existing id. -/
theorem delete_and_404_spec_witness :
    (show_post { users := [], posts := [{ id := 3, title := "T", subtitle := "S",
                                          date := "D", body := "B", img_url := "I",
                                          author_id := 1 }], comments := [] }
        none 9 none 1).response = Response.httpError 404 ∧
    (delete_post { users := [], posts := [{ id := 3, title := "T", subtitle := "S",
                                            date := "D", body := "B", img_url := "I",
                                            author_id := 1 }], comments := [] }
        (some { id := 1, email := "a@x", name := "A", password := "h" })
        9).response = Response.httpError 404 ∧
    (delete_post { users := [], posts := [{ id := 3, title := "T", subtitle := "S",
                                            date := "D", body := "B", img_url := "I",
                                            author_id := 1 }], comments := [] }
        (some { id := 1, email := "a@x", name := "A", password := "h" })
        3).response = Response.redirect "get_all_posts" none ∧
    (show_post (delete_post { users := [], posts := [{ id := 3, title := "T",
                                                       subtitle := "S", date := "D",
                                                       body := "B", img_url := "I",
                                                       author_id := 1 }],
                              comments := [] }
        (some { id := 1, email := "a@x", name := "A", password := "h" })
        3).db none 3 none 2).response = Response.httpError 404 := by
  refine ⟨?_, ?_, ?_, ?_⟩
  · exact ((delete_and_404_spec
      { users := [], posts := [{ id := 3, title := "T", subtitle := "S",
                                 date := "D", body := "B", img_url := "I",
                                 author_id := 1 }], comments := [] }
      { id := 1, email := "a@x", name := "A", password := "h" }
      9 none none none none 1 1 rfl).1 rfl).1
  · exact ((delete_and_404_spec
      { users := [], posts := [{ id := 3, title := "T", subtitle := "S",
                                 date := "D", body := "B", img_url := "I",
                                 author_id := 1 }], comments := [] }
      { id := 1, email := "a@x", name := "A", password := "h" }
      9 none none none none 1 1 rfl).1 rfl).2
  · exact ((delete_and_404_spec
      { users := [], posts := [{ id := 3, title := "T", subtitle := "S",
                                 date := "D", body := "B", img_url := "I",
                                 author_id := 1 }], comments := [] }
      { id := 1, email := "a@x", name := "A", password := "h" }
      3 none none none none 1 2 rfl).2
      { id := 3, title := "T", subtitle := "S", date := "D", body := "B",
        img_url := "I", author_id := 1 } rfl).1
  · exact ((delete_and_404_spec
      { users := [], posts := [{ id := 3, title := "T", subtitle := "S",
                                 date := "D", body := "B", img_url := "I",
                                 author_id := 1 }], comments := [] }
      { id := 1, email := "a@x", name := "A", password := "h" }
      3 none none none none 1 2 rfl).2
      { id := 3, title := "T", subtitle := "S", date := "D", body := "B",
        img_url := "I", author_id := 1 } rfl).2.2

/-- Claim C6: a validated create-post submission by the admin persists a
post whose author is the current identity and whose date is the server's
current date rendered by `strftime("%B %d, %Y")`, then redirects to the
post listing (not to the new post's detail page). -/
theorem add_new_post_spec (st : DBState) (admin : User)
    (f : CreatePostFormData) (today : PyDate) (fid : Nat)
    (hadmin : admin.id = 1) :
    add_new_post st (some admin) (some f) today fid =
      { db := { st with posts := st.posts ++
          [{ id := fid, title := f.title, subtitle := f.subtitle,
             date := strftime_BdY today, body := f.body, img_url := f.img_url,
             author_id := admin.id }] },
        session := some admin, flashes := [],
        response := Response.redirect "get_all_posts" none } := by
  simp [add_new_post, guardResult, admin_only, hadmin, add_new_post_body]

/-- Claim C6, witness: the admin creates a post on 2026-10-05; the stored
date is the zero-padded "Month DD, YYYY" rendering and the response is the
listing redirect. -/
theorem add_new_post_spec_witness :
    add_new_post { users := [], posts := [], comments := [] }
        (some { id := 1, email := "a@x", name := "A", password := "h" })
        (some { title := "T", subtitle := "S", img_url := "I", body := "B" })
        { year := 2026, month := 10, day := 5 } 4 =
      { db := { users := [],
                posts := [{ id := 4, title := "T", subtitle := "S",
                            date := "October 05, 2026", body := "B",
                            img_url := "I", author_id := 1 }],
                comments := [] },
        session := some { id := 1, email := "a@x", name := "A", password := "h" },
        flashes := [],
        response := Response.redirect "get_all_posts" none } ∧
    strftime_BdY { year := 2026, month := 10, day := 5 } = "October 05, 2026" := by
  constructor
  · exact add_new_post_spec { users := [], posts := [], comments := [] }
      { id := 1, email := "a@x", name := "A", password := "h" }
      { title := "T", subtitle := "S", img_url := "I", body := "B" }
      { year := 2026, month := 10, day := 5 } 4 rfl
  · rfl

/-- Claim C7: a validated edit of an existing post overwrites its title,
subtitle, image URL and body with the submitted values, reassigns the
author to the identity currently logged in (whoever that is), and
redirects to that post's detail view. -/
theorem edit_post_spec (st : DBState) (pid : Nat) (f : CreatePostFormData)
    (user : User) :
    ∀ p, st.posts.find? (fun q => q.id == pid) = some p →
      edit_post st (some user) pid (some f) =
        { db := { st with posts := st.posts.map (fun q =>
            if q.id == pid then
              { id := p.id, title := f.title, subtitle := f.subtitle,
                date := p.date, body := f.body, img_url := f.img_url,
                author_id := user.id }
            else q) },
          session := some user, flashes := [],
          response := Response.redirect "show_post" (some p.id) } := by
  intro p h
  simp [edit_post, h]

/-- Claim C7, witness: a user with id 2 edits a post originally authored
by user 1; the stored post carries the new field values and author 2, and
the response redirects to the post's detail view. -/
theorem edit_post_spec_witness :
    edit_post { users := [], posts := [{ id := 3, title := "T", subtitle := "S",
                                         date := "D", body := "B", img_url := "I",
                                         author_id := 1 }], comments := [] }
        (some { id := 2, email := "b@x", name := "B", password := "h" })
        3 (some { title := "T2", subtitle := "S2", img_url := "I2", body := "B2" }) =
      { db := { users := [],
                posts := [{ id := 3, title := "T2", subtitle := "S2",
                            date := "D", body := "B2", img_url := "I2",
                            author_id := 2 }],
                comments := [] },
        session := some { id := 2, email := "b@x", name := "B", password := "h" },
        flashes := [],
        response := Response.redirect "show_post" (some 3) } := by
  have h := edit_post_spec
    { users := [], posts := [{ id := 3, title := "T", subtitle := "S",
                               date := "D", body := "B", img_url := "I",
                               author_id := 1 }], comments := [] }
    3 { title := "T2", subtitle := "S2", img_url := "I2", body := "B2" }
    { id := 2, email := "b@x", name := "B", password := "h" }
    { id := 3, title := "T", subtitle := "S", date := "D", body := "B",
      img_url := "I", author_id := 1 } rfl
  simpa using h

/-- Claim C8: on a validated contact submission, a transport exception is
swallowed by the bare `except:` and surfaces only as a "danger" flash,
while a successful transport surfaces a "success" flash; both cases leave
the database alone and redirect back to the contact page. -/
theorem contact_spec (st : DBState) (cu : Option User) (f : ContactFormData)
    (from_email : String) (transport : String → MailOutcome) :
    (∀ e, transport (construct_msg from_email f.name f.email f.phone_number f.message)
        = MailOutcome.exn e →
      contact st cu (some f) from_email transport =
        { db := st, session := cu,
          flashes := [{ message := "An unexpected error occurred. Please try again later",
                        category := "danger" }],
          response := Response.redirect "contact" none }) ∧
    (transport (construct_msg from_email f.name f.email f.phone_number f.message)
        = MailOutcome.ok →
      contact st cu (some f) from_email transport =
        { db := st, session := cu,
          flashes := [{ message := "Your message has been sent successfully!",
                        category := "success" }],
          response := Response.redirect "contact" none }) := by
  constructor
  · intro e h
    simp [contact, h]
  · intro h
    simp [contact, h]

/-- Claim C8, witness: a transport that always raises and a transport
that always succeeds, on a concrete submission. -/
theorem contact_spec_witness :
    contact { users := [], posts := [], comments := [] } none
        (some { name := "N", email := "n@x", phone_number := "1", message := "m" })
        "from@x" (fun _ => MailOutcome.exn "SMTPException") =
      { db := { users := [], posts := [], comments := [] }, session := none,
        flashes := [{ message := "An unexpected error occurred. Please try again later",
                      category := "danger" }],
        response := Response.redirect "contact" none } ∧
    contact { users := [], posts := [], comments := [] } none
        (some { name := "N", email := "n@x", phone_number := "1", message := "m" })
        "from@x" (fun _ => MailOutcome.ok) =
      { db := { users := [], posts := [], comments := [] }, session := none,
        flashes := [{ message := "Your message has been sent successfully!",
                      category := "success" }],
        response := Response.redirect "contact" none } := by
  constructor
  · exact (contact_spec { users := [], posts := [], comments := [] } none
      { name := "N", email := "n@x", phone_number := "1", message := "m" }
      "from@x" (fun _ => MailOutcome.exn "SMTPException")).1 "SMTPException" rfl
  · exact (contact_spec { users := [], posts := [], comments := [] } none
      { name := "N", email := "n@x", phone_number := "1", message := "m" }
      "from@x" (fun _ => MailOutcome.ok)).2 rfl

/-- Claim C9: the avatar URL handed to the post template is one fixed
string built only from the default parameters — it carries no email-derived
hash segment and is the same for every request, commenter and post. -/
theorem gravatar_spec (st : DBState) (cu : Option User) (pid : Nat)
    (form : Option CommentFormData) (fid : Nat) :
    gravatar_url 100 "g" "retro" false
      = "https://www.gravatar.com/avatar/?s=100&d=retro&r=g&f=False" ∧
    gravatar_url_default
      = "https://www.gravatar.com/avatar/?s=100&d=retro&r=g&f=False" ∧
    (∀ t g, (show_post st cu pid form fid).response = Response.render t (some g) →
      g = "https://www.gravatar.com/avatar/?s=100&d=retro&r=g&f=False") := by
  refine ⟨rfl, rfl, ?_⟩
  intro t g h
  cases hf : st.posts.find? (fun p => p.id == pid) with
  | none =>
    simp [show_post, hf] at h
  | some p =>
    cases form with
    | none =>
      simp [show_post, hf] at h
      exact h.2.symm
    | some cf =>
      cases cu with
      | none =>
        simp [show_post, hf] at h
      | some user =>
        simp [show_post, hf] at h
        exact h.2.symm

/-- Claim C9, witness: a concrete GET of an existing post renders the
fixed default-avatar URL. -/
theorem gravatar_spec_witness :
    (show_post { users := [], posts := [{ id := 3, title := "T", subtitle := "S",
                                          date := "D", body := "B", img_url := "I",
                                          author_id := 1 }], comments := [] }
        none 3 none 1).response =
      Response.render "post.html"
        (some "https://www.gravatar.com/avatar/?s=100&d=retro&r=g&f=False") := by
  have h := (gravatar_spec
    { users := [], posts := [{ id := 3, title := "T", subtitle := "S",
                               date := "D", body := "B", img_url := "I",
                               author_id := 1 }], comments := [] }
    none 3 none 1).2.2 "post.html" gravatar_url_default rfl
  rw [← h]
  rfl

/-- Two members of a list with no duplicate keys that share a key are the
same element. -/
theorem mem_eq_of_nodup_keys {α : Type} (key : α → Nat) :
    ∀ {l : List α}, (l.map key).Nodup → ∀ {a b : α}, a ∈ l → b ∈ l →
      key a = key b → a = b := by
  intro l
  induction l with
  | nil =>
    intro _ a b ha
    cases ha
  | cons x xs ih =>
    intro hnd a b ha hb hk
    have hnd' : key x ∉ xs.map key ∧ (xs.map key).Nodup := by
      simpa [List.nodup_cons] using hnd
    rcases List.mem_cons.1 ha with ha1 | ha1
    · rcases List.mem_cons.1 hb with hb1 | hb1
      · exact ha1.trans hb1.symm
      · exfalso
        apply hnd'.1
        have hmem : key b ∈ xs.map key := List.mem_map_of_mem key hb1
        rw [← ha1, hk]
        exact hmem
    · rcases List.mem_cons.1 hb with hb1 | hb1
      · exfalso
        apply hnd'.1
        have hmem : key a ∈ xs.map key := List.mem_map_of_mem key ha1
        rw [← hb1, ← hk]
        exact hmem
      · exact ih hnd'.2 ha1 hb1 hk

/-- Mapping with `g` first leaves a projection unchanged when `g`
preserves that projection on every member. -/
theorem map_map_eq_of_proj {α β : Type} (g : α → α) (proj : α → β)
    (l : List α) (h : ∀ a ∈ l, proj (g a) = proj a) :
    (l.map g).map proj = l.map proj := by
  rw [List.map_map]
  exact List.map_congr_left h

/-- Claim C10: a validated edit of an existing post (ids being unique, as
the primary key makes them) leaves the user and comment tables untouched
and preserves the id and publication date of every stored post — in
particular the edited one. -/
theorem edit_post_frame_spec (st : DBState) (pid : Nat)
    (f : CreatePostFormData) (user : User)
    (hnodup : (st.posts.map (fun q => q.id)).Nodup) :
    ∀ p, st.posts.find? (fun q => q.id == pid) = some p →
      (edit_post st (some user) pid (some f)).db.users = st.users ∧
      (edit_post st (some user) pid (some f)).db.comments = st.comments ∧
      (edit_post st (some user) pid (some f)).db.posts.map (fun q => (q.id, q.date))
        = st.posts.map (fun q => (q.id, q.date)) := by
  intro p h
  have hmem : p ∈ st.posts := List.mem_of_find?_eq_some h
  have hpid : p.id = pid := by simpa using List.find?_some h
  refine ⟨by simp [edit_post, h], by simp [edit_post, h], ?_⟩
  simp only [edit_post, h]
  apply map_map_eq_of_proj
  intro q hq
  by_cases hc : q.id = pid
  · have hq_eq : q = p :=
      mem_eq_of_nodup_keys (fun r => r.id) hnodup hq hmem (hc.trans hpid.symm)
    subst hq_eq
    simp [hc]
  · simp [hc]

/-- Claim C10, witness: editing post 3 in a two-post table keeps both
ids and both dates (and the user/comment tables) unchanged. -/
theorem edit_post_frame_spec_witness :
    (edit_post { users := [], posts := [{ id := 3, title := "T", subtitle := "S",
                                          date := "D", body := "B", img_url := "I",
                                          author_id := 1 },
                                        { id := 4, title := "U", subtitle := "V",
                                          date := "E", body := "C", img_url := "J",
                                          author_id := 1 }], comments := [] }
        (some { id := 2, email := "b@x", name := "B", password := "h" })
        3 (some { title := "T2", subtitle := "S2", img_url := "I2",
                  body := "B2" })).db.posts.map (fun q => (q.id, q.date))
      = [(3, "D"), (4, "E")] := by
  have h := (edit_post_frame_spec
    { users := [], posts := [{ id := 3, title := "T", subtitle := "S",
                               date := "D", body := "B", img_url := "I",
                               author_id := 1 },
                             { id := 4, title := "U", subtitle := "V",
                               date := "E", body := "C", img_url := "J",
                               author_id := 1 }], comments := [] }
    3 { title := "T2", subtitle := "S2", img_url := "I2", body := "B2" }
    { id := 2, email := "b@x", name := "B", password := "h" }
    (by decide)
    { id := 3, title := "T", subtitle := "S", date := "D", body := "B",
      img_url := "I", author_id := 1 } rfl).2.2
  rw [h]
  rfl

end BlogApp
